import Mathlib

/-!
Verification of the BigTechNews relevance-scoring, deduplication and
digest-assembly pipeline (src/scraper/index.js with the lexicon tables of
src/scraper/sources.js), as a shallow embedding in Lean.

Strings are modelled as Lean `String` (a list of characters); the inputs the
pipeline sees are ASCII, so JavaScript's UTF-16 string operations coincide
with the character-list operations used here.  Machine-level details that the
claims do not touch (the `link`, `source`, `sourceKey` and `image` fields of
an article, which the pipeline merely carries through unchanged) are omitted
from the article record.  A `published` value is modelled as `Option Int`:
`some t` for a string that `parseISO` parses to the timestamp `t`, `none` for
a missing or unparseable one.
-/

set_option maxRecDepth 100000

namespace BigTechNews

/-! ### Basic string helpers (JS semantics on ASCII data) -/

/-- ASCII lower-casing of one character, the behaviour of JS
`String.prototype.toLowerCase` on ASCII input. -/
def lowerChar (c : Char) : Char :=
  if 65 ≤ c.toNat ∧ c.toNat ≤ 90 then Char.ofNat (c.toNat + 32) else c

/-- Lower-case a whole string. -/
def lowerStr (s : String) : String := ⟨s.data.map lowerChar⟩

/-- First `n` characters of a string (JS `substring(0, n)` on ASCII data). -/
def strTake (s : String) (n : Nat) : String := ⟨s.data.take n⟩

/-- `pat` occurs at the start of `s`. -/
def leadsWith : List Char → List Char → Bool
  | [], _ => true
  | _ :: _, [] => false
  | a :: as, b :: bs => a == b && leadsWith as bs

/-- `pat` occurs somewhere in `s`. -/
def hasSub (pat : List Char) : List Char → Bool
  | [] => pat.isEmpty
  | c :: cs => leadsWith pat (c :: cs) || hasSub pat cs

/-- JS `hay.includes(pat)`. -/
def strIncludes (hay pat : String) : Bool := hasSub pat.data hay.data

/-! ### A tiny regular-expression evaluator

The exclusion list `EXCLUDED_PATTERNS` of `src/scraper/sources.js` uses only
four regex constructs besides literal characters: `\b` (word boundary),
`\d+` (one or more digits), `\.?` (an optional dot) and the `i` flag.  The
`i` flag is modelled by lower-casing the haystack (every pattern literal in
the source is already lower-case). -/

inductive RTok where
  /-- a literal character -/
  | lit (c : Char)
  /-- `\d+` : one or more digits -/
  | digits
  /-- `\.?` : an optional literal dot -/
  | optDot
  /-- `\b` : a word boundary -/
  | wb
deriving DecidableEq

/-- JS regex word characters `[A-Za-z0-9_]`, restricted to a lower-cased
haystack. -/
def isWordChar (c : Char) : Bool :=
  (97 ≤ c.toNat && c.toNat ≤ 122) || (48 ≤ c.toNat && c.toNat ≤ 57) || c == '_'

/-- Is there a word boundary between the previous character (`none` at the
start of the string) and the next one (`none` at the end)? -/
def boundary (prev : Option Char) (next : Option Char) : Bool :=
  (match prev with | none => false | some c => isWordChar c)
    != (match next with | none => false | some c => isWordChar c)

/-- Match a token list against a prefix of `s`; `prev` is the character just
before `s` in the full haystack.  `fuel` bounds the recursion depth: every
call consumes either a token or a character, so `toks.length + s.length`
steps always suffice. -/
def matchToks : Nat → Option Char → List RTok → List Char → Bool
  | 0, _, _, _ => false
  | fuel + 1, prev, toks, s =>
    match toks with
    | [] => true
    | RTok.wb :: ts => boundary prev s.head? && matchToks fuel prev ts s
    | RTok.lit c :: ts =>
      match s with
      | [] => false
      | x :: xs => x == c && matchToks fuel (some x) ts xs
    | RTok.optDot :: ts =>
      (match s with
       | x :: xs => x == '.' && matchToks fuel (some x) ts xs
       | [] => false) || matchToks fuel prev ts s
    | RTok.digits :: ts =>
      match s with
      | [] => false
      | x :: xs =>
        x.isDigit &&
          (matchToks fuel (some x) ts xs || matchToks fuel (some x) (RTok.digits :: ts) xs)

/-- Try to match starting at every position of `s`. -/
def searchFrom (p : List RTok) : Option Char → List Char → Bool
  | prev, [] => matchToks (p.length + 1) prev p []
  | prev, c :: cs =>
    matchToks (p.length + (c :: cs).length + 1) prev p (c :: cs) || searchFrom p (some c) cs

/-- JS `pattern.test(str)` for a case-insensitive pattern. -/
def regexTest (p : List RTok) (str : String) : Bool :=
  searchFrom p none (lowerStr str).data

/-- Literal-character run of a pattern. -/
def lits (s : String) : List RTok := s.data.map RTok.lit

/-! ### The lexicon (src/scraper/sources.js) -/

/-- `HIGH_IMPACT_KEYWORDS` of src/scraper/sources.js. -/
def HIGH_IMPACT_KEYWORDS : List String :=
  ["openai", "anthropic", "chatgpt", "gpt-5", "claude", "gemini", "llama",
   "artificial general intelligence", "agi", "superintelligence",
   "acquisition", "acquires", "merger", "billion dollar", "ipo", "layoffs",
   "antitrust", "monopoly", "regulation", "ftc", "doj", "eu commission",
   "ceo", "sam altman", "elon musk", "mark zuckerberg", "sundar pichai",
   "satya nadella", "tim cook", "jensen huang", "dario amodei",
   "breakthrough", "revolutionary", "first ever", "world record",
   "quantum", "fusion", "robotaxi", "humanoid robot"]

/-- `BIG_TECH_COMPANIES` of src/scraper/sources.js. -/
def BIG_TECH_COMPANIES : List String :=
  ["google", "alphabet", "microsoft", "apple", "amazon", "meta", "facebook",
   "nvidia", "openai", "anthropic", "tesla", "spacex", "intel", "amd",
   "qualcomm", "broadcom", "tsmc", "samsung", "netflix", "uber",
   "bytedance", "tiktok", "baidu", "xiaomi", "huawei",
   "oracle", "salesforce", "adobe",
   "coinbase", "stripe", "waymo", "cruise", "rivian", "byd",
   "foxconn", "arm", "softbank", "palantir", "coreweave",
   "perplexity", "mistral", "cohere", "stability ai", "midjourney",
   "xai", "neuralink", "figure ai", "boston dynamics"]

/-- `RELEVANT_TOPICS` of src/scraper/sources.js. -/
def RELEVANT_TOPICS : List String :=
  ["artificial intelligence", "machine learning", "deep learning", "neural network",
   "large language model", "llm", "generative ai", "foundation model",
   "ai safety", "alignment", "ai regulation",
   "semiconductor", "chip", "gpu", "data center", "supercomputer",
   "blackwell", "hopper", "h100", "b200", "tpu",
   "autonomous vehicle", "self-driving", "robotaxi", "humanoid robot",
   "automation", "optimus",
   "starlink", "starship", "rocket launch", "satellite",
   "antitrust", "regulation", "lawsuit", "ipo", "acquisition",
   "billion", "valuation", "funding round", "layoffs",
   "bitcoin", "stablecoin", "crypto regulation"]

/-- `EXCLUDED_PATTERNS` of src/scraper/sources.js, each case-insensitive
regex rendered as an `RTok` pattern. -/
def EXCLUDED_PATTERNS : List (List RTok) :=
  [lits "deal", [RTok.wb] ++ lits "sale" ++ [RTok.wb], lits "discount",
   lits "save $", lits "% off", lits "prime day", lits "black friday",
   lits "best buy", lits "walmart", lits "cheap", lits "budget",
   lits "price drop", lits "price cut",
   [RTok.wb] ++ lits "review:", lits "hands-on", lits "unboxing",
   [RTok.wb] ++ lits "vs" ++ [RTok.optDot, RTok.wb], lits "compared",
   lits "buying guide",
   lits "best phones", lits "best laptops", lits "best tv",
   lits "best headphones", lits "best wireless",
   lits "top " ++ [RTok.digits] ++ lits " ", [RTok.digits] ++ lits " best ",
   lits "how to", lits "tips for", lits "guide to", lits "tutorial",
   lits "step by step",
   lits "ways to", lits "things you", lits "everything you need",
   lits "now available", lits "rolling out", lits "coming soon",
   lits "early access",
   lits "gets a new", lits "adds support",
   lits "game review", lits "movie review", lits "tv show", lits "playlist",
   lits "recipe", lits "fitness", lits "wellness",
   lits "you need to", lits "you should", lits "why you",
   lits "don\x27t miss", lits "must have",
   [RTok.wb] ++ lits "secret" ++ [RTok.wb],
   [RTok.wb] ++ lits "hack" ++ [RTok.wb],
   [RTok.wb] ++ lits "trick" ++ [RTok.wb],
   lits "won\x27t believe", lits "this is why"]

/-- `CATEGORIES` of src/scraper/sources.js as an ordered `(key, keywords)`
list; the presentational `name` and `icon` fields play no part in
`categorizeArticle` and are omitted. -/
def CATEGORIES : List (String × List String) :=
  [("ai",
    ["ai", "artificial intelligence", "machine learning", "llm", "chatgpt",
     "claude", "gemini", "openai", "anthropic", "gpt", "neural", "deep learning",
     "generative ai", "copilot", "perplexity", "midjourney", "stable diffusion",
     "foundation model", "training", "inference"]),
   ("chips_cloud",
    ["nvidia", "amd", "intel", "qualcomm", "tsmc", "samsung chip", "semiconductor",
     "processor", "gpu", "cpu", "aws", "azure", "gcp", "cloud", "data center",
     "blackwell", "hopper", "coreweave", "broadcom", "arm"]),
   ("robotics",
    ["robot", "robotics", "optimus", "humanoid", "automation", "boston dynamics",
     "figure", "agility", "warehouse robot"]),
   ("ev_autonomous",
    ["tesla", "ev", "electric vehicle", "waymo", "cruise", "autonomous", "self-driving",
     "robotaxi", "rivian", "lucid", "byd", "nio", "xpeng", "battery", "charging"]),
   ("space",
    ["spacex", "starlink", "starship", "nasa", "rocket", "satellite", "orbit",
     "blue origin", "kuiper", "launch"]),
   ("regulation",
    ["antitrust", "regulation", "ftc", "doj", "eu", "gdpr", "privacy", "lawsuit",
     "fine", "compliance", "congress", "senate", "bill", "monopoly"]),
   ("business",
    ["acquisition", "merger", "ipo", "funding", "valuation", "layoff",
     "earnings", "revenue", "billion", "ceo", "executive"]),
   ("crypto",
    ["bitcoin", "ethereum", "crypto", "blockchain", "stablecoin",
     "coinbase", "binance", "sec crypto", "crypto regulation"])]

/-- `MIN_RELEVANCE_SCORE` of src/scraper/index.js. -/
def MIN_RELEVANCE_SCORE : Nat := 3

/-! ### Articles and the scorer (src/scraper/index.js) -/

/-- An input article.  The `link`, `source`, `sourceKey` and `image` fields
of the JS record never influence scoring, categorization, deduplication or
window filtering and are omitted.  `published` is the parse of the article's
timestamp string: `none` when missing or unparseable. -/
structure Article where
  title : String
  description : String
  published : Option Int
  priority : Nat
deriving DecidableEq

/-- `shouldExclude` of src/scraper/index.js: does any exclusion pattern
match the text? -/
def shouldExclude (text : String) : Bool :=
  EXCLUDED_PATTERNS.any (fun p => regexTest p text)

/-- The companies pass of `calculateRelevance`: `+2` per company found in
the haystack, pushing the company onto the reasons list. -/
def companyPass (text : String) : Nat × List String :=
  BIG_TECH_COMPANIES.foldl
    (fun acc c =>
      if strIncludes text (lowerStr c) then (acc.1 + 2, acc.2 ++ [c]) else acc)
    (0, [])

/-- The high-impact-keywords pass: `+3` per keyword found, pushing it onto
the reasons list unless already present. -/
def keywordPass (text : String) (acc : Nat × List String) : Nat × List String :=
  HIGH_IMPACT_KEYWORDS.foldl
    (fun acc k =>
      if strIncludes text (lowerStr k) then
        (acc.1 + 3, if k ∈ acc.2 then acc.2 else acc.2 ++ [k])
      else acc)
    acc

/-- The relevant-topics pass: `+1` per topic found, pushing it onto the
reasons list unless already present. -/
def topicPass (text : String) (acc : Nat × List String) : Nat × List String :=
  RELEVANT_TOPICS.foldl
    (fun acc t =>
      if strIncludes text (lowerStr t) then
        (acc.1 + 1, if t ∈ acc.2 then acc.2 else acc.2 ++ [t])
      else acc)
    acc

/-- The final loop of `calculateRelevance`: an additional `+2` per company
found in the title alone. -/
def titleBonus (title : String) (s : Nat) : Nat :=
  BIG_TECH_COMPANIES.foldl
    (fun s c => if strIncludes title (lowerStr c) then s + 2 else s) s

/-- `calculateRelevance` of src/scraper/index.js: the score and the
(≤ 5) matched-keyword reasons of an article. -/
def calculateRelevance (article : Article) : Nat × List String :=
  let title := lowerStr article.title
  let description := strTake (lowerStr article.description) 500
  let text := title ++ " " ++ description
  if shouldExclude article.title then (0, ["excluded"])
  else
    let p1 := companyPass text
    let p2 := keywordPass text p1
    let p3 := topicPass text p2
    let s4 := if article.priority = 1 then p3.1 + 1 else p3.1
    (titleBonus title s4, p3.2.take 5)

/-! ### The categorizer (src/scraper/index.js) -/

/-- Count how many of a category's keywords occur in the text. -/
def catHits (text : String) (keywords : List String) : Nat :=
  keywords.foldl (fun n k => if strIncludes text (lowerStr k) then n + 1 else n) 0

/-- `categorizeArticle` of src/scraper/index.js: keep the first category
whose keyword-hit count strictly exceeds the best so far (initially 0). -/
def categorizeArticle (article : Article) : Option String :=
  let text := lowerStr (article.title ++ " " ++ article.description)
  (CATEGORIES.foldl
    (fun acc c =>
      let score := catHits text c.2
      if acc.2 < score then (some c.1, score) else acc)
    ((none : Option String), 0)).1

/-! ### The deduplicator (src/scraper/index.js) -/

/-- JS `\s` whitespace on ASCII data. -/
def isWsChar (c : Char) : Bool :=
  c == ' ' || c == '\t' || c == '\n' || c == '\x0d' || c == '\x0b' || c == '\x0c'

/-- `[a-z0-9]`: the characters kept by `.replace(/[^a-z0-9\s]/g, '')`
besides whitespace. -/
def isLowerAlnum (c : Char) : Bool :=
  (97 ≤ c.toNat && c.toNat ≤ 122) || (48 ≤ c.toNat && c.toNat ≤ 57)

/-- JS `str.split(/\s+/)`: split at maximal whitespace runs, keeping the
(possibly empty) pieces at either end.  The accumulator is `some acc` while
inside a piece and `none` while skipping a whitespace run. -/
def splitWsGo : Option (List Char) → List Char → List String
  | none, [] => [""]
  | some acc, [] => [⟨acc.reverse⟩]
  | none, c :: cs =>
    if isWsChar c then splitWsGo none cs else splitWsGo (some [c]) cs
  | some acc, c :: cs =>
    if isWsChar c then String.mk acc.reverse :: splitWsGo none cs
    else splitWsGo (some (c :: acc)) cs

/-- Split a string on whitespace runs. -/
def splitWs (l : List Char) : List String := splitWsGo (some []) l

/-- Ascending lexicographic comparison of character lists by code point,
the order used by JS default `Array.prototype.sort` on strings. -/
def charsLe : List Char → List Char → Bool
  | [], _ => true
  | _ :: _, [] => false
  | a :: as, b :: bs =>
    if a.toNat < b.toNat then true
    else if b.toNat < a.toNat then false
    else charsLe as bs

/-- `a ≤ b` on strings, JS default sort order. -/
def strLe (a b : String) : Bool := charsLe a.data b.data

/-- Insert a string into an ascending-sorted list. -/
def insertStr (x : String) : List String → List String
  | [] => [x]
  | y :: ys => if strLe x y then x :: y :: ys else y :: insertStr x ys

/-- Sort strings ascending; for the total order `strLe` this yields the same
list as JS `Array.prototype.sort`. -/
def sortStrs : List String → List String
  | [] => []
  | x :: xs => insertStr x (sortStrs xs)

/-- JS `words.join("|")`. -/
def joinBar : List String → String
  | [] => ""
  | [w] => w
  | w :: ws => w ++ "|" ++ joinBar ws

/-- The dedup signature computed inside `deduplicateArticles`: lower-case the
title, strip characters outside `[a-z0-9\s]`, split on whitespace, keep words
longer than 3 characters, sort, take the first 5, join with `|`. -/
def titleSignature (title : String) : String :=
  joinBar
    (((sortStrs
        ((splitWs ((lowerStr title).data.filter
            (fun c => isLowerAlnum c || isWsChar c))).filter
          (fun w => 3 < w.length)))).take 5)

/-- The loop of `deduplicateArticles`, generic in how a record exposes its
title (the JS function is duck-typed over any object with a `title`). -/
def dedupGo {α : Type} (titleOf : α → String) (seen : List String) :
    List α → List α
  | [] => []
  | a :: rest =>
    if titleSignature (titleOf a) ∈ seen then dedupGo titleOf seen rest
    else a :: dedupGo titleOf (titleSignature (titleOf a) :: seen) rest

/-- `deduplicateArticles` of src/scraper/index.js. -/
def deduplicateArticles {α : Type} (titleOf : α → String) (l : List α) : List α :=
  dedupGo titleOf [] l

/-! ### The window calculator -/

/-- `isInRange` of src/scraper/index.js: `parseISO` + `isWithinInterval`
inside `try/catch`.  A missing or unparseable `published` value (`none`)
yields `false`; a parsed timestamp is in range when it lies within the
inclusive interval. -/
def isInRange (published : Option Int) (lo hi : Int) : Bool :=
  match published with
  | none => false
  | some t => decide (lo ≤ t) && decide (t ≤ hi)

/-- Gregorian leap year. -/
def isLeap (y : Nat) : Bool :=
  y % 4 == 0 && (y % 100 != 0 || y % 400 == 0)

/-- Days in a Gregorian year. -/
def daysInYear (y : Nat) : Nat := if isLeap y then 366 else 365

/-- Days in the months of year `y` (month 1..12). -/
def monthDays (y : Nat) (m : Nat) : Nat :=
  if m = 2 then (if isLeap y then 29 else 28)
  else if m = 4 ∨ m = 6 ∨ m = 9 ∨ m = 11 then 30
  else 31

/-- 1-based ordinal day of the year of a civil date. -/
def dayOfYear (y m d : Nat) : Nat :=
  ((List.range m).filter (fun k => 1 ≤ k)).foldl (fun n k => n + monthDays y k) 0 + d

/-- Rata-die day number of a proleptic Gregorian date: `0001-01-01` is day 1. -/
def rataDie (y m d : Nat) : Nat :=
  365 * (y - 1) + (y - 1) / 4 - (y - 1) / 100 + (y - 1) / 400 + dayOfYear y m d

/-- From a 0-based count of days since `0001-01-01`, recover the year and the
0-based ordinal day within it.  `fuel` bounds the year-stepping loop; each
step consumes at least 365 days, so `n` steps always suffice. -/
def yearDoy : Nat → Nat → Nat → Nat × Nat
  | 0, y, n => (y, n)
  | fuel + 1, y, n =>
    if n < daysInYear y then (y, n) else yearDoy fuel (y + 1) (n - daysInYear y)

/-- `getWeekInfo` of src/scraper/index.js: the ISO-8601 week number and
week-based year of a date.  The repository carries the algorithm explicitly
(shift the date to the Thursday of its Monday-based week; that Thursday's
year is the ISO year, and the week number is `ceil(dayOfYear/7)` there),
which is also the semantics of date-fns `getISOWeek`/`getISOWeekYear` used
by the primary variant.  Returns `(week, year)`. -/
def getWeekInfo (y m d : Nat) : Nat × Nat :=
  let rd := rataDie y m d
  let dayNum := (rd - 1) % 7 + 1
  let thu := rd + 4 - dayNum
  let p := yearDoy thu 1 (thu - 1)
  (p.2 / 7 + 1, p.1)

/-- `generateWeekId` of src/scraper/index.js: `String(year).slice(-2)` then
a dash then the unpadded week number. -/
def generateWeekId (week year : Nat) : String :=
  String.mk ((toString year).data.reverse.take 2).reverse ++ "-" ++ toString week

/-! ### The digest assembler (`processArticles` of src/scraper/index.js) -/

/-- An article after scoring and categorization (`{ ...article,
relevanceScore, matchedKeywords, category }`). -/
structure ScoredArticle where
  title : String
  description : String
  published : Option Int
  priority : Nat
  relevanceScore : Nat
  matchedKeywords : List String
  category : Option String
deriving DecidableEq

instance : Inhabited ScoredArticle := ⟨⟨"", "", none, 0, 0, [], none⟩⟩

/-- The `.map` body of `processArticles`: spread the article and attach
score, reasons and category. -/
def mkScored (a : Article) : ScoredArticle :=
  ⟨a.title, a.description, a.published, a.priority,
   (calculateRelevance a).1, (calculateRelevance a).2, categorizeArticle a⟩

/-- Insert into a list sorted by strictly descending relevance score,
after every earlier element of greater-or-equal score. -/
def insertByScore (x : ScoredArticle) : List ScoredArticle → List ScoredArticle
  | [] => [x]
  | y :: ys =>
    if y.relevanceScore < x.relevanceScore then x :: y :: ys
    else y :: insertByScore x ys

/-- Stable sort by descending relevance score: the semantics of
`.sort((a, b) => b.relevanceScore - a.relevanceScore)` (ES2019 sort is
stable, and this comparator is a total preorder, so the result is the
unique stable descending reordering). -/
def sortByScoreDesc : List ScoredArticle → List ScoredArticle
  | [] => []
  | x :: xs => insertByScore x (sortByScoreDesc xs)

/-- `byCategory[key].push(article)`, creating the bucket at the end when the
key is new (JS object string keys keep insertion order). -/
def addToCat (m : List (String × List ScoredArticle)) (key : String)
    (a : ScoredArticle) : List (String × List ScoredArticle) :=
  match m with
  | [] => [(key, [a])]
  | (k, l) :: rest =>
    if k = key then (k, l ++ [a]) :: rest else (k, l) :: addToCat rest key a

/-- One step of the `byCategory` loop: uncategorized articles are skipped. -/
def catStep (m : List (String × List ScoredArticle)) (s : ScoredArticle) :
    List (String × List ScoredArticle) :=
  match s.category with
  | none => m
  | some k => addToCat m k s

/-- The `byCategory` grouping of `processArticles`. -/
def buildByCategory (l : List ScoredArticle) : List (String × List ScoredArticle) :=
  l.foldl catStep []

/-- `articles.filter(a => isInRange(a.published, start, end))`. -/
def windowFilter (articles : List Article) (lo hi : Int) : List Article :=
  articles.filter (fun a => isInRange a.published lo hi)

/-- The scored window articles. -/
def scoredOf (articles : List Article) (lo hi : Int) : List ScoredArticle :=
  (windowFilter articles lo hi).map mkScored

/-- `.filter(article => article.relevanceScore >= MIN_RELEVANCE_SCORE)`. -/
def relevantOf (articles : List Article) (lo hi : Int) : List ScoredArticle :=
  (scoredOf articles lo hi).filter
    (fun s => decide (MIN_RELEVANCE_SCORE ≤ s.relevanceScore))

/-- The filtered window articles sorted by descending score. -/
def sortedOf (articles : List Article) (lo hi : Int) : List ScoredArticle :=
  sortByScoreDesc (relevantOf articles lo hi)

/-- `uniqueArticles` of `processArticles`: the full filtered, sorted,
deduplicated list for the window. -/
def pipelineList (articles : List Article) (lo hi : Int) : List ScoredArticle :=
  deduplicateArticles (fun s => s.title) (sortedOf articles lo hi)

/-- The digest payload assembled by `processArticles`. -/
structure Processed where
  highlights : List ScoredArticle
  byCategory : List (String × List ScoredArticle)
  totalArticles : Nat
deriving DecidableEq

/-- `processArticles` of src/scraper/index.js. -/
def processArticles (articles : List Article) (lo hi : Int) : Processed :=
  { highlights := (pipelineList articles lo hi).take 10
    byCategory := buildByCategory (pipelineList articles lo hi)
    totalArticles := (pipelineList articles lo hi).length }

/-! ### Supporting lemmas -/

theorem dedupGo_sublist {α : Type} (titleOf : α → String) (l : List α) :
    ∀ seen, List.Sublist (dedupGo titleOf seen l) l := by
  induction l with
  | nil => intro seen; simp [dedupGo]
  | cons a rest ih =>
    intro seen
    by_cases h : titleSignature (titleOf a) ∈ seen
    · simpa [dedupGo, h] using (ih seen).cons a
    · simpa [dedupGo, h] using (ih (titleSignature (titleOf a) :: seen)).cons₂ a

theorem dedupGo_idem {α : Type} (titleOf : α → String) (l : List α) :
    ∀ seen, dedupGo titleOf seen (dedupGo titleOf seen l) = dedupGo titleOf seen l := by
  induction l with
  | nil => intro seen; simp [dedupGo]
  | cons a rest ih =>
    intro seen
    by_cases h : titleSignature (titleOf a) ∈ seen
    · simp [dedupGo, h, ih seen]
    · simp [dedupGo, h, ih (titleSignature (titleOf a) :: seen)]

theorem insertByScore_perm (x : ScoredArticle) (l : List ScoredArticle) :
    List.Perm (insertByScore x l) (x :: l) := by
  induction l with
  | nil => simp [insertByScore]
  | cons y ys ih =>
    by_cases h : y.relevanceScore < x.relevanceScore
    · simp [insertByScore, h]
    · simp only [insertByScore, if_neg h]
      exact (ih.cons y).trans (List.Perm.swap x y ys)

theorem sortByScoreDesc_perm (l : List ScoredArticle) : List.Perm (sortByScoreDesc l) l := by
  induction l with
  | nil => simp [sortByScoreDesc]
  | cons x xs ih => exact (insertByScore_perm x (sortByScoreDesc xs)).trans (ih.cons x)

theorem mem_addToCat {m : List (String × List ScoredArticle)} {key : String}
    {a : ScoredArticle} {kb : String × List ScoredArticle} {x : ScoredArticle}
    (hkb : kb ∈ addToCat m key a) (hx : x ∈ kb.2) :
    (∃ kb₀ ∈ m, x ∈ kb₀.2) ∨ x = a := by
  induction m with
  | nil =>
    simp only [addToCat, List.mem_singleton] at hkb
    subst hkb
    simp only [List.mem_singleton] at hx
    exact Or.inr hx
  | cons p rest ih =>
    obtain ⟨k, l⟩ := p
    by_cases h : k = key
    · simp only [addToCat, if_pos h, List.mem_cons] at hkb
      rcases hkb with hkb | hkb
      · subst hkb
        simp only [List.mem_append, List.mem_singleton] at hx
        rcases hx with hx | hx
        · exact Or.inl ⟨(k, l), List.mem_cons_self _ _, hx⟩
        · exact Or.inr hx
      · exact Or.inl ⟨kb, List.mem_cons_of_mem _ hkb, hx⟩
    · simp only [addToCat, if_neg h, List.mem_cons] at hkb
      rcases hkb with hkb | hkb
      · subst hkb
        exact Or.inl ⟨(k, l), List.mem_cons_self _ _, hx⟩
      · rcases ih hkb with ⟨kb₀, hkb₀, hx₀⟩ | hxa
        · exact Or.inl ⟨kb₀, List.mem_cons_of_mem _ hkb₀, hx₀⟩
        · exact Or.inr hxa

theorem mem_foldl_catStep (l : List ScoredArticle) :
    ∀ (m : List (String × List ScoredArticle)) (kb : String × List ScoredArticle)
      (x : ScoredArticle), kb ∈ l.foldl catStep m → x ∈ kb.2 →
      (∃ kb₀ ∈ m, x ∈ kb₀.2) ∨ x ∈ l := by
  induction l with
  | nil =>
    intro m kb x hkb hx
    exact Or.inl ⟨kb, hkb, hx⟩
  | cons s rest ih =>
    intro m kb x hkb hx
    simp only [List.foldl_cons] at hkb
    rcases ih (catStep m s) kb x hkb hx with h | h
    · obtain ⟨kb₀, hkb₀, hx₀⟩ := h
      unfold catStep at hkb₀
      cases hc : s.category with
      | none =>
        rw [hc] at hkb₀
        exact Or.inl ⟨kb₀, hkb₀, hx₀⟩
      | some k =>
        rw [hc] at hkb₀
        rcases mem_addToCat hkb₀ hx₀ with h' | h'
        · exact Or.inl h'
        · exact Or.inr (by simp [h'])
    · exact Or.inr (List.mem_cons_of_mem _ h)

theorem mem_buildByCategory {l : List ScoredArticle}
    {kb : String × List ScoredArticle} {x : ScoredArticle}
    (hkb : kb ∈ buildByCategory l) (hx : x ∈ kb.2) : x ∈ l := by
  rcases mem_foldl_catStep l [] kb x hkb hx with h | h
  · simp at h
  · exact h

theorem mem_pipeline_relevant {articles : List Article} {lo hi : Int}
    {s : ScoredArticle} (h : s ∈ pipelineList articles lo hi) :
    s ∈ relevantOf articles lo hi := by
  have h' : s ∈ dedupGo (fun s : ScoredArticle => s.title) [] (sortedOf articles lo hi) := h
  have h₁ : s ∈ sortedOf articles lo hi :=
    (dedupGo_sublist (fun s : ScoredArticle => s.title) (sortedOf articles lo hi) []).mem h'
  exact (sortByScoreDesc_perm (relevantOf articles lo hi)).mem_iff.mp h₁

theorem mem_pipeline_score {articles : List Article} {lo hi : Int}
    {s : ScoredArticle} (h : s ∈ pipelineList articles lo hi) :
    MIN_RELEVANCE_SCORE ≤ s.relevanceScore := by
  have h₂ := List.mem_filter.mp (mem_pipeline_relevant h)
  exact of_decide_eq_true h₂.2

theorem mem_pipeline_published {articles : List Article} {lo hi : Int}
    {s : ScoredArticle} (h : s ∈ pipelineList articles lo hi) :
    s.published ≠ none := by
  have h₂ := (List.mem_filter.mp (mem_pipeline_relevant h)).1
  simp only [scoredOf, List.mem_map] at h₂
  obtain ⟨a, ha, rfl⟩ := h₂
  have h₃ := (List.mem_filter.mp ha).2
  intro hnone
  have : a.published = none := hnone
  rw [this] at h₃
  simp [isInRange] at h₃

/-! ### The categorizer seen through the spec's words -/

/-- The per-category keyword-hit counts, in iteration order. -/
def categoryScores (article : Article) : List (String × Nat) :=
  CATEGORIES.map
    (fun c =>
      (c.1, catHits (lowerStr (article.title ++ " " ++ article.description)) c.2))

/-- The running maximum of the scores. -/
def foldMax (l : List (String × Nat)) (m : Nat) : Nat :=
  l.foldl (fun n p => max n p.2) m

/-- Spec-side description of the categorizer result: the category with the
strictly highest hit count wins, ties keep the first-seen category in
iteration order, and a zero maximum yields no category. -/
def specBestCategory (scores : List (String × Nat)) : Option String :=
  if foldMax scores 0 = 0 then none
  else (scores.find? (fun p => p.2 == foldMax scores 0)).map Prod.fst

theorem le_foldMax (l : List (String × Nat)) : ∀ m, m ≤ foldMax l m := by
  induction l with
  | nil => intro m; exact Nat.le_refl m
  | cons p rest ih =>
    intro m
    have hc : foldMax (p :: rest) m = foldMax rest (max m p.2) := rfl
    rw [hc]
    exact Nat.le_trans (Nat.le_max_left _ _) (ih _)

theorem foldMax_attained (l : List (String × Nat)) :
    ∀ m, foldMax l m = m ∨ ∃ p ∈ l, p.2 = foldMax l m := by
  induction l with
  | nil => intro m; exact Or.inl rfl
  | cons p rest ih =>
    intro m
    have hc : foldMax (p :: rest) m = foldMax rest (max m p.2) := rfl
    rcases ih (max m p.2) with h | ⟨q, hq, hq2⟩
    · rcases Nat.le_total p.2 m with hle | hle
      · exact Or.inl (by rw [hc, h, Nat.max_eq_left hle])
      · exact Or.inr ⟨p, List.mem_cons_self _ _, by rw [hc, h, Nat.max_eq_right hle]⟩
    · exact Or.inr ⟨q, List.mem_cons_of_mem _ hq, by rw [hc]; exact hq2⟩

theorem foldl_pick_fst (l : List (String × Nat)) :
    ∀ (b : Option String) (m : Nat),
      (l.foldl (fun acc p => if acc.2 < p.2 then (some p.1, p.2) else acc) (b, m)).1
      = if foldMax l m = m then b
        else (l.find? (fun p => p.2 == foldMax l m)).elim b (fun p => some p.1) := by
  induction l with
  | nil => intro b m; simp [foldMax]
  | cons p rest ih =>
    intro b m
    rw [List.foldl_cons]
    have hstep :
        (if (b, m).2 < p.2 then ((some p.1 : Option String), p.2) else (b, m))
        = if m < p.2 then (some p.1, p.2) else (b, m) := rfl
    rw [hstep]
    by_cases hp : m < p.2
    · rw [if_pos hp, ih (some p.1) p.2]
      have hmax : foldMax (p :: rest) m = foldMax rest p.2 := by
        have hc : foldMax (p :: rest) m = foldMax rest (max m p.2) := rfl
        rw [hc, Nat.max_eq_right (Nat.le_of_lt hp)]
      rw [hmax]
      have hmM : m < foldMax rest p.2 :=
        Nat.lt_of_lt_of_le hp (le_foldMax rest p.2)
      rw [if_neg (show ¬foldMax rest p.2 = m by omega)]
      by_cases hM : foldMax rest p.2 = p.2
      · rw [if_pos hM]
        have hfind : List.find? (fun q => q.2 == foldMax rest p.2) (p :: rest) = some p :=
          @List.find?_cons_of_pos _ (fun q => q.2 == foldMax rest p.2) p rest (by simp [hM])
        rw [hfind]
        rfl
      · rw [if_neg hM]
        have hfind : List.find? (fun q => q.2 == foldMax rest p.2) (p :: rest)
            = List.find? (fun q => q.2 == foldMax rest p.2) rest :=
          @List.find?_cons_of_neg _ (fun q => q.2 == foldMax rest p.2) p rest
            (by simp; omega)
        rw [hfind]
        rcases foldMax_attained rest p.2 with h | ⟨q, hq, hq2⟩
        · exact absurd h hM
        · have hsome : (List.find? (fun q => q.2 == foldMax rest p.2) rest).isSome := by
            rw [List.find?_isSome]
            exact ⟨q, hq, by simp [hq2]⟩
          obtain ⟨r, hr⟩ := Option.isSome_iff_exists.mp hsome
          rw [hr]
          rfl
    · rw [if_neg hp, ih b m]
      have hmax : foldMax (p :: rest) m = foldMax rest m := by
        have hc : foldMax (p :: rest) m = foldMax rest (max m p.2) := rfl
        rw [hc, Nat.max_eq_left (Nat.le_of_not_lt hp)]
      rw [hmax]
      by_cases hM : foldMax rest m = m
      · rw [if_pos hM, if_pos hM]
      · rw [if_neg hM, if_neg hM]
        have hmle : m ≤ foldMax rest m := le_foldMax rest m
        have hfind : List.find? (fun q => q.2 == foldMax rest m) (p :: rest)
            = List.find? (fun q => q.2 == foldMax rest m) rest :=
          @List.find?_cons_of_neg _ (fun q => q.2 == foldMax rest m) p rest
            (by simp; omega)
        rw [hfind]

theorem categorizeArticle_foldl_pairs (article : Article) :
    categorizeArticle article
    = ((categoryScores article).foldl
        (fun acc p => if acc.2 < p.2 then (some p.1, p.2) else acc)
        ((none : Option String), 0)).1 := by
  unfold categorizeArticle categoryScores
  rw [List.foldl_map]

/-! ### The claims -/

/-- C1: for every article whose title matches at least one exclusion pattern,
the scorer returns score 0 and reasons exactly `["excluded"]`, regardless of
the description, priority, or any company/keyword/topic content — exclusion
short-circuits all other scoring. -/
theorem claim1_exclusion_dominance (article : Article)
    (h : shouldExclude article.title = true) :
    calculateRelevance article = (0, ["excluded"]) := by
  unfold calculateRelevance
  rw [if_pos h]

/-- Witness for C1 at a concrete excluded article whose description still
mentions big-tech companies. -/
theorem claim1_exclusion_dominance_witness :
    shouldExclude (Article.mk "Best Black Friday deals on laptops"
        "Huge discounts on Apple and Nvidia laptops" none 1).title = true
    ∧ calculateRelevance (Article.mk "Best Black Friday deals on laptops"
        "Huge discounts on Apple and Nvidia laptops" none 1) = (0, ["excluded"]) :=
  ⟨by decide, claim1_exclusion_dominance _ (by decide)⟩

/-- C2 counterexample: the two article titles of the claim do NOT share a
dedup signature — "unveils" and "unveiled" both survive the length-3 word
filter and differ, and the signature function applies no stemming. -/
theorem claim2_signature_counterexample :
    ¬(titleSignature "Tesla unveils new robotaxi design"
      = titleSignature "Robotaxi design unveiled by Tesla") := by decide

/-- C2 amended: the two titles produce the distinct signatures
`design|robotaxi|tesla|unveils` and `design|robotaxi|tesla|unveiled`, so the
deduplicator keeps both articles, in input order. -/
theorem claim2_distinct_signatures_keep_both :
    titleSignature "Tesla unveils new robotaxi design"
      = "design|robotaxi|tesla|unveils"
    ∧ titleSignature "Robotaxi design unveiled by Tesla"
      = "design|robotaxi|tesla|unveiled"
    ∧ deduplicateArticles (fun a : Article => a.title)
        [Article.mk "Tesla unveils new robotaxi design" "" none 1,
         Article.mk "Robotaxi design unveiled by Tesla" "" none 1]
      = [Article.mk "Tesla unveils new robotaxi design" "" none 1,
         Article.mk "Robotaxi design unveiled by Tesla" "" none 1] := by decide

/-- C3: the article `{title: "OpenAI announces GPT-5, stock jumps",
description: "", priority: 1}` scores 11 (company "openai" +2, high-impact
"openai" +3 and "gpt-5" +3, priority-1 bonus +1, title-mention company bonus
+2), hence at least 10, clearing the inclusion threshold. -/
theorem claim3_openai_scenario :
    (calculateRelevance
      (Article.mk "OpenAI announces GPT-5, stock jumps" "" none 1)).1 = 11
    ∧ 10 ≤ (calculateRelevance
        (Article.mk "OpenAI announces GPT-5, stock jumps" "" none 1)).1
    ∧ MIN_RELEVANCE_SCORE ≤ (calculateRelevance
        (Article.mk "OpenAI announces GPT-5, stock jumps" "" none 1)).1 := by decide

/-- C4: every article in the assembled digest's highlights or in any
byCategory bucket has relevance score at least the configured minimum
threshold. -/
theorem claim4_threshold_property (articles : List Article) (lo hi : Int)
    (s : ScoredArticle)
    (h : s ∈ (processArticles articles lo hi).highlights
      ∨ ∃ kb ∈ (processArticles articles lo hi).byCategory, s ∈ kb.2) :
    MIN_RELEVANCE_SCORE ≤ s.relevanceScore := by
  rcases h with h | ⟨kb, hkb, hs⟩
  · have h' : s ∈ (pipelineList articles lo hi).take 10 := h
    exact mem_pipeline_score (List.take_subset 10 _ h')
  · have hkb' : kb ∈ buildByCategory (pipelineList articles lo hi) := hkb
    exact mem_pipeline_score (mem_buildByCategory hkb' hs)

/-- Witness for C4 at a one-article window whose article lands in the
highlights. -/
theorem claim4_threshold_property_witness :
    (mkScored (Article.mk "OpenAI announces GPT-5, stock jumps" "" (some 5) 1)
        ∈ (processArticles
            [Article.mk "OpenAI announces GPT-5, stock jumps" "" (some 5) 1]
            0 10).highlights
      ∨ ∃ kb ∈ (processArticles
            [Article.mk "OpenAI announces GPT-5, stock jumps" "" (some 5) 1]
            0 10).byCategory,
          mkScored (Article.mk "OpenAI announces GPT-5, stock jumps" "" (some 5) 1)
            ∈ kb.2)
    ∧ MIN_RELEVANCE_SCORE
        ≤ (mkScored
            (Article.mk "OpenAI announces GPT-5, stock jumps" "" (some 5) 1)).relevanceScore :=
  ⟨Or.inl (by decide),
   claim4_threshold_property
     [Article.mk "OpenAI announces GPT-5, stock jumps" "" (some 5) 1] 0 10
     (mkScored (Article.mk "OpenAI announces GPT-5, stock jumps" "" (some 5) 1))
     (Or.inl (by decide))⟩

/-- C5: the digest's highlights list has length `min 10 totalArticles` and is
a prefix of the full filtered, sorted, deduplicated list. -/
theorem claim5_highlights_bound (articles : List Article) (lo hi : Int) :
    (processArticles articles lo hi).highlights.length
      = min 10 (processArticles articles lo hi).totalArticles
    ∧ ∃ t, (processArticles articles lo hi).highlights ++ t
        = pipelineList articles lo hi :=
  ⟨List.length_take 10 _,
   ⟨(pipelineList articles lo hi).drop 10, List.take_append_drop 10 _⟩⟩

/-- C6: the deduplicator is idempotent and its output is a sublist of its
input (so the relative order of surviving articles is preserved). -/
theorem claim6_dedup_idempotent {α : Type} (titleOf : α → String) (l : List α) :
    deduplicateArticles titleOf (deduplicateArticles titleOf l)
      = deduplicateArticles titleOf l
    ∧ List.Sublist (deduplicateArticles titleOf l) l :=
  ⟨dedupGo_idem titleOf l [], dedupGo_sublist titleOf l []⟩

/-- C7: the categorizer returns exactly the first category attaining the
strictly highest keyword-hit count, and no category when every count is
zero — the refinement of `categorizeArticle` against the spec's description
`specBestCategory`. -/
theorem claim7_categorizer_spec (article : Article) :
    categorizeArticle article = specBestCategory (categoryScores article) := by
  rw [categorizeArticle_foldl_pairs, foldl_pick_fst]
  unfold specBestCategory
  by_cases h0 : foldMax (categoryScores article) 0 = 0
  · rw [if_pos h0, if_pos h0]
  · rw [if_neg h0, if_neg h0]
    cases hf : List.find? (fun p => p.2 == foldMax (categoryScores article) 0)
        (categoryScores article) with
    | none => rfl
    | some r => rfl

/-- C8: the reference date 2026-02-05 falls in ISO week 6 of ISO year 2026,
and the weekly digest id is "26-6". -/
theorem claim8_iso_week :
    getWeekInfo 2026 2 5 = (6, 2026) ∧ generateWeekId 6 2026 = "26-6" := by decide

/-- C9: an article whose `published` value is missing or unparseable fails
the window-membership test for every window, and consequently no article of
any assembled digest list has an unparseable `published` value. -/
theorem claim9_unparseable_excluded :
    (∀ lo hi : Int, isInRange none lo hi = false)
    ∧ (∀ (articles : List Article) (lo hi : Int) (s : ScoredArticle),
        s ∈ pipelineList articles lo hi → s.published ≠ none) :=
  ⟨fun _ _ => rfl, fun _ _ _ _ h => mem_pipeline_published h⟩

/-- Witness for C9 at a concrete one-article pipeline. -/
theorem claim9_unparseable_excluded_witness :
    mkScored (Article.mk "Nvidia Blackwell" "" (some 1) 2)
      ∈ pipelineList [Article.mk "Nvidia Blackwell" "" (some 1) 2] 0 5
    ∧ (mkScored (Article.mk "Nvidia Blackwell" "" (some 1) 2)).published ≠ none :=
  ⟨by decide,
   claim9_unparseable_excluded.2 [Article.mk "Nvidia Blackwell" "" (some 1) 2] 0 5
     (mkScored (Article.mk "Nvidia Blackwell" "" (some 1) 2)) (by decide)⟩

/-- C10: the scorer is insensitive to any priority other than 1: two articles
identical except for their (non-1) priorities — in particular priorities 2
and 3 — receive the same score and the same reasons. -/
theorem claim10_priority_insensitive (t d : String) (pub : Option Int)
    (p : Nat) (h : p ≠ 1) :
    calculateRelevance (Article.mk t d pub p)
      = calculateRelevance (Article.mk t d pub 2) := by
  unfold calculateRelevance
  by_cases hx : shouldExclude t = true
  · rw [if_pos hx, if_pos hx]
  · rw [if_neg hx, if_neg hx]
    have h1 : ((Article.mk t d pub p).priority = 1) = (p = 1) := rfl
    simp only [h1]
    rw [if_neg h, if_neg (show ¬(2 : Nat) = 1 by omega)]

/-- Witness for C10 at priorities 3 and 2. -/
theorem claim10_priority_insensitive_witness :
    (3 : Nat) ≠ 1
    ∧ calculateRelevance (Article.mk "Nvidia Blackwell" "" none 3)
        = calculateRelevance (Article.mk "Nvidia Blackwell" "" none 2) :=
  ⟨by decide, claim10_priority_insensitive _ _ _ 3 (by decide)⟩

end BigTechNews
